import Mathlib

/-!
Verification of the graph-adapter factory
(`src/knowledge/adapters/factory.py`, class `GraphAdapterFactory`).

The factory holds a process-wide registry mapping a type tag (string) to an
adapter constructor, and exposes `register`, `create_adapter`,
`get_supported_types`, `detect_graph_type`, `create_adapter_by_db_id` and
`create_adapter_for_db_id`.

Modelling notes:
* Python dictionaries over string keys are modelled as association lists with
  `dictGet` / `dictSet` mirroring `dict.get` and item assignment.
* A registry value is `Option AdapterClass`: `Option.none` models the Python
  value `None` (or any other falsy value) stored under a key, `some c` a real
  adapter class.  `dictGet` then returns `Option (Option AdapterClass)`:
  the outer layer is key absence, the inner layer Python falsiness, so the
  source's `if not adapter_class:` rejects exactly `Option.none` and
  `some Option.none`.
* The optional knowledge-base manager argument is `Option Manager`;
  `Option.none` models passing `None` (or any falsy manager, which the
  short-circuiting `if knowledge_base_manager and ...` treats identically).
  `Manager.hasMethod` models `hasattr(manager, "is_lightrag_database")`.
* `raise ValueError(msg)` becomes `Except.error (PyError.valueError msg)`.
-/

/-- A Python value as it appears in the factory's keyword arguments:
`None`, a string, an opaque object (e.g. a graph-db instance), or a dict. -/
inductive PyVal where
  | nil : PyVal
  | str : String → PyVal
  | obj : Nat → PyVal
  | dict : List (String × PyVal) → PyVal

/-- Keyword arguments of a Python call (`**kwargs`): an ordered mapping from
argument names to values. -/
def Kwargs : Type := List (String × PyVal)

/-- Modelled from the spec: the adapter classes (`UploadGraphAdapter`,
`LightRAGGraphAdapter`, the base `GraphAdapter`) are external collaborators
whose internals are not shown; an adapter class is opaque, identified by
name. -/
structure AdapterClass where
  name : String
deriving DecidableEq, Repr

/-- `from .upload import UploadGraphAdapter` — opaque collaborator class. -/
def UploadGraphAdapter : AdapterClass := ⟨"UploadGraphAdapter"⟩

/-- `from .lightrag import LightRAGGraphAdapter` — opaque collaborator class. -/
def LightRAGGraphAdapter : AdapterClass := ⟨"LightRAGGraphAdapter"⟩

/-- An adapter instance: opaque to the factory; the canonical instance
records which class produced it and with which keyword arguments. -/
structure Adapter where
  cls : AdapterClass
  kwargs : Kwargs

/-- A Python exception raised by the factory: the source raises
`ValueError(f"Unknown graph type: {graph_type}")`. -/
inductive PyError where
  | valueError : String → PyError
deriving DecidableEq, Repr

/-- `d.get(k)` on a Python dict modelled as an association list. -/
def dictGet {α : Type} (d : List (String × α)) (k : String) : Option α :=
  match d with
  | [] => Option.none
  | (k', v) :: rest => if k' = k then some v else dictGet rest k

/-- `d[k] = v` on a Python dict: overwrite the entry if the key is present,
otherwise append it. -/
def dictSet {α : Type} (d : List (String × α)) (k : String) (v : α) :
    List (String × α) :=
  match d with
  | [] => [(k, v)]
  | (k', v') :: rest =>
      if k' = k then (k, v) :: rest else (k', v') :: dictSet rest k v

/-- `os.environ.get(key, default)`: the process environment is a string
dict. -/
def environGet (environ : List (String × String)) (key default : String) :
    String :=
  (dictGet environ key).getD default

/-- The optional knowledge-base manager collaborator.  `hasMethod` models
`hasattr(manager, "is_lightrag_database")`; `is_lightrag_database` is the
method's behaviour (only consulted when the attribute exists). -/
structure Manager where
  hasMethod : Bool
  is_lightrag_database : String → Bool

/-- External collaborators of the factory that live outside this file's
scope: the behaviour of adapter constructors when invoked with keyword
arguments (`adapter_class(**kwargs)`, which may itself raise), the pure
label-derivation helper `derive_kb_node_label` imported from
`src.knowledge.utils.kb_utils`, and the process environment `os.environ`. -/
structure Externals where
  instantiate : AdapterClass → Kwargs → Except PyError Adapter
  derive_kb_node_label : String → String
  environ : List (String × String)

/-- The canonical constructor behaviour: building an instance that records
its class and the exact keyword arguments, never raising. -/
def mkInstance : AdapterClass → Kwargs → Except PyError Adapter :=
  fun c k => Except.ok ⟨c, k⟩

namespace GraphAdapterFactory

/-- The registry: the class variable `_registry : dict[str, type[GraphAdapter]]`,
passed explicitly as state. -/
def Registry : Type := List (String × Option AdapterClass)

/-- The initial value of `_registry`:
`{"upload": UploadGraphAdapter, "lightrag": LightRAGGraphAdapter}`. -/
def initialRegistry : Registry :=
  [("upload", some UploadGraphAdapter),
   ("lightrag", some LightRAGGraphAdapter)]

/-- `register(graph_type, adapter_class)`:
`cls._registry[graph_type] = adapter_class`. -/
def register (registry : Registry) (graph_type : String)
    (adapter_class : Option AdapterClass) : Registry :=
  dictSet registry graph_type adapter_class

/-- `create_adapter(graph_type, **kwargs)`:
```
adapter_class = cls._registry.get(graph_type)
if not adapter_class:
    raise ValueError(f"Unknown graph type: {graph_type}")
return adapter_class(**kwargs)
```
`some (some c)` is the only truthy outcome of the lookup. -/
def create_adapter (instantiate : AdapterClass → Kwargs → Except PyError Adapter)
    (registry : Registry) (graph_type : String) (kwargs : Kwargs) :
    Except PyError Adapter :=
  match dictGet registry graph_type with
  | some (some adapter_class) => instantiate adapter_class kwargs
  | _ => Except.error (PyError.valueError ("Unknown graph type: " ++ graph_type))

/-- `get_supported_types()`: returns a fixed literal dict; the method reads
no registry state (the `registry` argument stands for the class state it
ignores). -/
def get_supported_types (_registry : Registry) : List (String × String) :=
  [("upload", "上传文件图谱 - 支持embedding和阈值查询"),
   ("lightrag", "LightRAG知识图谱 - 基于kb_id标签的图谱")]

/-- `detect_graph_type(db_id, knowledge_base_manager=None)`:
```
if knowledge_base_manager and hasattr(knowledge_base_manager, "is_lightrag_database"):
    if knowledge_base_manager.is_lightrag_database(db_id):
        return "lightrag"
return "upload"
```
-/
def detect_graph_type (db_id : String)
    (knowledge_base_manager : Option Manager) : String :=
  match knowledge_base_manager with
  | some m =>
      if m.hasMethod then
        if m.is_lightrag_database db_id then "lightrag" else "upload"
      else "upload"
  | Option.none => "upload"

/-- `create_adapter_by_db_id(db_id, knowledge_base_manager=None, graph_db_instance=None)`:
detects the graph type, then builds either
`create_adapter("lightrag", config={"kb_id": db_id})` or
`create_adapter("upload", graph_db_instance=graph_db_instance,
config={"kgdb_name": os.environ.get("NEO4J_DATABASE", "neo4j"),
"kb_label": derive_kb_node_label(db_id), "kb_id": db_id})`. -/
def create_adapter_by_db_id (ext : Externals) (registry : Registry)
    (db_id : String) (knowledge_base_manager : Option Manager)
    (graph_db_instance : PyVal) : Except PyError Adapter :=
  let graph_type := detect_graph_type db_id knowledge_base_manager
  if graph_type = "lightrag" then
    create_adapter ext.instantiate registry "lightrag"
      [("config", PyVal.dict [("kb_id", PyVal.str db_id)])]
  else
    create_adapter ext.instantiate registry "upload"
      [("graph_db_instance", graph_db_instance),
       ("config", PyVal.dict
         [("kgdb_name", PyVal.str (environGet ext.environ "NEO4J_DATABASE" "neo4j")),
          ("kb_label", PyVal.str (ext.derive_kb_node_label db_id)),
          ("kb_id", PyVal.str db_id)])]

/-- `create_adapter_for_db_id(...)`: compatibility method, delegates to
`create_adapter_by_db_id` with the same arguments. -/
def create_adapter_for_db_id (ext : Externals) (registry : Registry)
    (db_id : String) (knowledge_base_manager : Option Manager)
    (graph_db_instance : PyVal) : Except PyError Adapter :=
  create_adapter_by_db_id ext registry db_id knowledge_base_manager
    graph_db_instance

/-- A key is present in the registry (regardless of its value's truthiness). -/
def containsKey (registry : Registry) (k : String) : Bool :=
  (dictGet registry k).isSome

/-- All registry states reachable from the initial one by a sequence of
`register` calls (the only operation that mutates the registry). -/
def runRegisters (ops : List (String × Option AdapterClass)) : Registry :=
  ops.foldl (fun r p => register r p.1 p.2) initialRegistry

end GraphAdapterFactory

namespace GraphAdapterFactory

/- Helper lemmas shared by the proofs below. -/

/-- Reading a key from a dict after a `dictSet`: the written key yields the
written value, any other key is unaffected. -/
theorem dictGet_dictSet {α : Type} (d : List (String × α)) (k k' : String)
    (v : α) :
    dictGet (dictSet d k v) k' = if k = k' then some v else dictGet d k' := by
  induction d with
  | nil => simp [dictSet, dictGet]
  | cons p rest ih =>
      obtain ⟨a, b⟩ := p
      by_cases hak : a = k
      · subst hak
        by_cases h1 : a = k'
        · simp [dictSet, dictGet, h1]
        · simp [dictSet, dictGet, h1]
      · by_cases h1 : a = k'
        · have hkk : ¬k = k' := fun h => hak (h1.trans h.symm)
          have hka : ¬k' = k := fun h => hkk h.symm
          simp [dictSet, dictGet, hak, h1, hkk, hka]
        · simp [dictSet, dictGet, hak, h1, ih]

/-- Appending the same string on the left is cancellable. -/
theorem string_append_left_cancel (p s t : String) (h : p ++ s = p ++ t) :
    s = t := by
  have hd := congrArg String.data h
  rw [String.data_append, String.data_append] at hd
  exact String.ext (List.append_cancel_left hd)

/-- `register` never removes a key: any key present stays present. -/
theorem containsKey_register_of (reg : Registry) (t : String)
    (v : Option AdapterClass) (k : String) (h : containsKey reg k = true) :
    containsKey (register reg t v) k = true := by
  simp only [containsKey, register, dictGet_dictSet]
  by_cases htk : t = k
  · simp [htk]
  · simpa [htk] using h

end GraphAdapterFactory

namespace GraphAdapterFactory

/-- C1: for every tag `t` whose registry entry is the constructor `C` and
every keyword-option set `o`, `create_adapter t o` returns exactly the result
of invoking `C` with `o` — the factory adds, drops and alters no option. -/
theorem create_adapter_uses_registered_constructor
    (instantiate : AdapterClass → Kwargs → Except PyError Adapter)
    (registry : Registry) (t : String) (o : Kwargs) (C : AdapterClass)
    (h : dictGet registry t = some (some C)) :
    create_adapter instantiate registry t o = instantiate C o := by
  unfold create_adapter
  rw [h]

/-- Witness for C1: in the initial registry, `"upload"` maps to
`UploadGraphAdapter`, and `create_adapter` on that tag with concrete options
returns the instance built by that class with exactly those options. -/
theorem create_adapter_uses_registered_constructor_witness :
    dictGet initialRegistry "upload" = some (some UploadGraphAdapter) ∧
    create_adapter mkInstance initialRegistry "upload"
        [("kb_id", PyVal.str "kb-42")] =
      mkInstance UploadGraphAdapter [("kb_id", PyVal.str "kb-42")] :=
  ⟨rfl,
   create_adapter_uses_registered_constructor mkInstance initialRegistry
     "upload" [("kb_id", PyVal.str "kb-42")] UploadGraphAdapter rfl⟩

/-- C2: for every tag `t` absent from the registry, `create_adapter` fails
with the `ValueError` whose message carries the unknown tag (the message
determines the tag uniquely), and this is the factory's only failure mode:
whenever a constructor is found, its result — error or not — is returned
unchanged, so no other exception is caught or translated by the factory. -/
theorem create_adapter_unknown_tag
    (instantiate : AdapterClass → Kwargs → Except PyError Adapter)
    (registry : Registry) (t : String) (o : Kwargs)
    (h : dictGet registry t = Option.none) :
    create_adapter instantiate registry t o =
      Except.error (PyError.valueError ("Unknown graph type: " ++ t)) ∧
    (∀ s : String,
      PyError.valueError ("Unknown graph type: " ++ s) =
        PyError.valueError ("Unknown graph type: " ++ t) → s = t) ∧
    (∀ (t' : String) (o' : Kwargs) (C : AdapterClass),
      dictGet registry t' = some (some C) →
      create_adapter instantiate registry t' o' = instantiate C o') := by
  refine ⟨?_, ?_, ?_⟩
  · unfold create_adapter
    rw [h]
  · intro s hs
    exact string_append_left_cancel "Unknown graph type: " s t
      (PyError.valueError.inj hs)
  · intro t' o' C hC
    unfold create_adapter
    rw [hC]

/-- Witness for C2: the tag `"__nonexistent__"` is not in the initial
registry, and `create_adapter` on it fails with the `ValueError` naming it. -/
theorem create_adapter_unknown_tag_witness :
    dictGet initialRegistry "__nonexistent__" =
      (Option.none : Option (Option AdapterClass)) ∧
    create_adapter mkInstance initialRegistry "__nonexistent__" [] =
      Except.error
        (PyError.valueError ("Unknown graph type: " ++ "__nonexistent__")) :=
  ⟨rfl,
   (create_adapter_unknown_tag mkInstance initialRegistry "__nonexistent__" []
     rfl).1⟩

/-- C3: `detect_graph_type` is total with range `{"lightrag", "upload"}`, and
returns `"lightrag"` exactly when a manager is supplied, it exposes
`is_lightrag_database`, and that method classifies the identifier as true;
in every other case (no manager, missing capability, or a false
classification) it returns `"upload"`. -/
theorem detect_graph_type_total_and_correct (db_id : String)
    (mgr : Option Manager) :
    (detect_graph_type db_id mgr = "lightrag" ∨
      detect_graph_type db_id mgr = "upload") ∧
    (detect_graph_type db_id mgr = "lightrag" ↔
      ∃ m : Manager, mgr = some m ∧ m.hasMethod = true ∧
        m.is_lightrag_database db_id = true) := by
  cases mgr with
  | none => simp [detect_graph_type]
  | some m =>
      by_cases h1 : m.hasMethod
      · by_cases h2 : m.is_lightrag_database db_id
        · simp [detect_graph_type, h1, h2]
        · simp [detect_graph_type, h1, h2]
      · simp [detect_graph_type, h1]

end GraphAdapterFactory

namespace GraphAdapterFactory

/-- C4: whenever the detected type of the identifier is `"upload"`,
`create_adapter_by_db_id` calls `create_adapter` with tag `"upload"`,
forwards `graph_db_instance`, and passes the config holding the value of
the `NEO4J_DATABASE` environment variable (default `"neo4j"`), the derived
label of the identifier, and the identifier itself. -/
theorem create_adapter_by_db_id_upload (ext : Externals) (registry : Registry)
    (db_id : String) (mgr : Option Manager) (graph_db_instance : PyVal)
    (h : detect_graph_type db_id mgr = "upload") :
    create_adapter_by_db_id ext registry db_id mgr graph_db_instance =
      create_adapter ext.instantiate registry "upload"
        [("graph_db_instance", graph_db_instance),
         ("config", PyVal.dict
           [("kgdb_name",
             PyVal.str (environGet ext.environ "NEO4J_DATABASE" "neo4j")),
            ("kb_label", PyVal.str (ext.derive_kb_node_label db_id)),
            ("kb_id", PyVal.str db_id)])] := by
  unfold create_adapter_by_db_id
  rw [h]
  simp

/-- Witness for C4: identifier `"kb-42"`, no manager, `NEO4J_DATABASE` set to
`"mydb"` — the detected type is `"upload"` and the adapter is built by the
upload constructor with `kgdb_name = "mydb"` and exactly the specified
config. -/
theorem create_adapter_by_db_id_upload_witness :
    detect_graph_type "kb-42" Option.none = "upload" ∧
    create_adapter_by_db_id
        ⟨mkInstance, fun s => "KB_" ++ s, [("NEO4J_DATABASE", "mydb")]⟩
        initialRegistry "kb-42" Option.none (PyVal.obj 0) =
      create_adapter mkInstance initialRegistry "upload"
        [("graph_db_instance", PyVal.obj 0),
         ("config", PyVal.dict
           [("kgdb_name", PyVal.str "mydb"),
            ("kb_label", PyVal.str "KB_kb-42"),
            ("kb_id", PyVal.str "kb-42")])] :=
  ⟨rfl,
   create_adapter_by_db_id_upload
     ⟨mkInstance, fun s => "KB_" ++ s, [("NEO4J_DATABASE", "mydb")]⟩
     initialRegistry "kb-42" Option.none (PyVal.obj 0) rfl⟩

/-- C5: whenever the detected type of the identifier is `"lightrag"`,
`create_adapter_by_db_id` calls `create_adapter` with tag `"lightrag"` and
config `{kb_id: identifier}` only — the right-hand sides mention
`graph_db_instance` nowhere, so it is never forwarded — and under the
initial registry the instance is produced by the registered LightRAG
constructor with exactly that config. -/
theorem create_adapter_by_db_id_lightrag (ext : Externals)
    (registry : Registry) (db_id : String) (mgr : Option Manager)
    (graph_db_instance : PyVal)
    (h : detect_graph_type db_id mgr = "lightrag") :
    create_adapter_by_db_id ext registry db_id mgr graph_db_instance =
      create_adapter ext.instantiate registry "lightrag"
        [("config", PyVal.dict [("kb_id", PyVal.str db_id)])] ∧
    create_adapter_by_db_id ext initialRegistry db_id mgr graph_db_instance =
      ext.instantiate LightRAGGraphAdapter
        [("config", PyVal.dict [("kb_id", PyVal.str db_id)])] := by
  constructor
  · unfold create_adapter_by_db_id
    rw [h]
    simp
  · unfold create_adapter_by_db_id
    rw [h]
    simp [create_adapter, dictGet, initialRegistry]

/-- Witness for C5: identifier `"kb-lr"` with a manager whose
`is_lightrag_database` answers true — the detected type is `"lightrag"` and
the adapter is the LightRAG instance built from `{kb_id: "kb-lr"}` alone. -/
theorem create_adapter_by_db_id_lightrag_witness :
    detect_graph_type "kb-lr" (some ⟨true, fun _ => true⟩) = "lightrag" ∧
    create_adapter_by_db_id ⟨mkInstance, fun s => "KB_" ++ s, []⟩
        initialRegistry "kb-lr" (some ⟨true, fun _ => true⟩) (PyVal.obj 7) =
      mkInstance LightRAGGraphAdapter
        [("config", PyVal.dict [("kb_id", PyVal.str "kb-lr")])] :=
  ⟨rfl,
   (create_adapter_by_db_id_lightrag ⟨mkInstance, fun s => "KB_" ++ s, []⟩
     initialRegistry "kb-lr" (some ⟨true, fun _ => true⟩) (PyVal.obj 7)
     rfl).2⟩

/-- C6: `register t C` followed by `create_adapter t o` invokes `C`, the most
recently registered constructor, whatever constructor `t` mapped to before —
including the built-in entries of any starting registry: registration
overwrites. -/
theorem register_then_create_uses_new_constructor
    (instantiate : AdapterClass → Kwargs → Except PyError Adapter)
    (registry : Registry) (t : String) (c : AdapterClass) (o : Kwargs) :
    create_adapter instantiate (register registry t (some c)) t o =
      instantiate c o := by
  unfold create_adapter register
  rw [dictGet_dictSet]
  simp

/-- C7: `get_supported_types` describes at least the tags `"upload"` and
`"lightrag"`, each with a non-empty description, and its result does not
depend on the registry state, so `register` calls made beforehand do not
change it. -/
theorem get_supported_types_static (reg reg' : Registry) :
    get_supported_types reg = get_supported_types reg' ∧
    (∃ du : String, dictGet (get_supported_types reg) "upload" = some du ∧
      du ≠ "") ∧
    (∃ dl : String, dictGet (get_supported_types reg) "lightrag" = some dl ∧
      dl ≠ "") := by
  refine ⟨rfl, ⟨"上传文件图谱 - 支持embedding和阈值查询", rfl, by decide⟩,
    ⟨"LightRAG知识图谱 - 基于kb_id标签的图谱", ?_, by decide⟩⟩
  simp [get_supported_types, dictGet]

/-- C8: `create_adapter_for_db_id` delegates to `create_adapter_by_db_id`
with unchanged arguments, so for every identifier, manager, graph-db
instance, registry state and collaborators the two produce the same result
and the same errors. -/
theorem create_adapter_for_db_id_delegates (ext : Externals)
    (registry : Registry) (db_id : String) (mgr : Option Manager)
    (graph_db_instance : PyVal) :
    create_adapter_for_db_id ext registry db_id mgr graph_db_instance =
      create_adapter_by_db_id ext registry db_id mgr graph_db_instance := rfl

end GraphAdapterFactory

namespace GraphAdapterFactory

/-- C9: the registry starts with the keys `"upload"` and `"lightrag"`, and
every registry state reachable by any sequence of `register` calls — the
only factory operation that changes the registry; the others take it as
read-only input — still contains both keys: no operation removes a key. -/
theorem registry_keys_superset (ops : List (String × Option AdapterClass)) :
    containsKey initialRegistry "upload" = true ∧
    containsKey initialRegistry "lightrag" = true ∧
    containsKey (runRegisters ops) "upload" = true ∧
    containsKey (runRegisters ops) "lightrag" = true := by
  have preserved : ∀ (l : List (String × Option AdapterClass))
      (reg : Registry) (k : String), containsKey reg k = true →
      containsKey (l.foldl (fun r p => register r p.1 p.2) reg) k = true := by
    intro l
    induction l with
    | nil => intro reg k h; exact h
    | cons p rest ih =>
        intro reg k h
        exact ih (register reg p.1 p.2) k (containsKey_register_of reg p.1 p.2 k h)
  refine ⟨rfl, rfl, ?_, ?_⟩
  · exact preserved ops initialRegistry "upload" rfl
  · exact preserved ops initialRegistry "lightrag" rfl

/-- C10: registering a falsy value (Python `None`) under a tag makes that tag
a present registry key whose value is `None`, yet `create_adapter` on the tag
raises the unknown-graph-type `ValueError` anyway: the factory tests the
looked-up value for truthiness, not the key for membership. -/
theorem register_falsy_value_raises_unknown_type
    (instantiate : AdapterClass → Kwargs → Except PyError Adapter)
    (registry : Registry) (t : String) (o : Kwargs) :
    dictGet (register registry t Option.none) t = some Option.none ∧
    create_adapter instantiate (register registry t Option.none) t o =
      Except.error (PyError.valueError ("Unknown graph type: " ++ t)) := by
  have hget : dictGet (register registry t Option.none) t = some Option.none := by
    unfold register
    rw [dictGet_dictSet]
    simp
  refine ⟨hget, ?_⟩
  unfold create_adapter
  rw [hget]

end GraphAdapterFactory
